import Mathlib

/-!
# Legal Document Structuring Engine — verification development

Shallow embedding of `structure_text_content` and `extract_metadata` from
`process_pdf_data_python/main.py`, together with theorems settling the
specification claims about line classification, title lookahead, text
buffering, the flush/attach protocol and metadata extraction.

Lines are modelled as `String` / `List Char`; the Python regular expressions
are embedded as hand-rolled matchers that follow the patterns character by
character (with `re.IGNORECASE` rendered by folding both sides through
`charFold`).  Matchers return the captured group together with the length of
the whole match, exactly the two pieces of information the Python code uses.
-/

namespace LegalStruct

/-- Whitespace characters recognised by the embedding (Python `\s`, `str.strip`
and `str.split`, restricted to the ASCII whitespace that can occur in the
documents). -/
def isSpaceChar (c : Char) : Bool :=
  c = ' ' || c = '\t' || c = '\n' || c = '\r' || c = '\x0b' || c = '\x0c'

/-- Lower-casing used to render `re.IGNORECASE` and `str.lower()`: ASCII
letters plus the accented Czech capitals that occur in the patterns and
inputs. -/
def charFold (c : Char) : Char :=
  if c.toNat ≥ 65 && c.toNat ≤ 90 then Char.ofNat (c.toNat + 32) else
  match c with
  | 'Á' => 'á' | 'Č' => 'č' | 'Ď' => 'ď' | 'É' => 'é' | 'Ě' => 'ě'
  | 'Í' => 'í' | 'Ň' => 'ň' | 'Ó' => 'ó' | 'Ř' => 'ř' | 'Š' => 'š'
  | 'Ť' => 'ť' | 'Ú' => 'ú' | 'Ů' => 'ů' | 'Ý' => 'ý' | 'Ž' => 'ž'
  | _ => c

/-- ASCII letter, either case (the set matched by `[A-Z]` under
`re.IGNORECASE`). -/
def isAsciiLetter (c : Char) : Bool :=
  (c.toNat ≥ 65 && c.toNat ≤ 90) || (c.toNat ≥ 97 && c.toNat ≤ 122)

/-- Lowercase ASCII letter (`[a-z]` without `re.IGNORECASE`). -/
def isLowerAscii (c : Char) : Bool := c.toNat ≥ 97 && c.toNat ≤ 122

/-- Roman-numeral letter, checked on folded characters (`[IVXLCDM]` under
`re.IGNORECASE`). -/
def isRomanFold (c : Char) : Bool :=
  c = 'i' || c = 'v' || c = 'x' || c = 'l' || c = 'c' || c = 'd' || c = 'm'

/-- Word character for Python `\w` (ASCII alphanumerics, underscore and the
Czech accented letters appearing in the documents). -/
def isWordChar (c : Char) : Bool :=
  isAsciiLetter c || c.isDigit || c = '_' ||
  charFold c ∈ ['á','č','ď','é','ě','í','ň','ó','ř','š','ť','ú','ů','ý','ž']

/-- `startsWithL pat l` : `l` begins with the literal characters `pat`
(case-sensitive, Python `str.startswith`). -/
def startsWithL : List Char → List Char → Bool
  | [], _ => true
  | _ :: _, [] => false
  | p :: ps, c :: cs => p = c && startsWithL ps cs

/-- Substring test (Python `in` on strings). -/
def hasSubL (needle : List Char) : List Char → Bool
  | [] => startsWithL needle []
  | hay@(_ :: rest) => startsWithL needle hay || hasSubL needle rest

/-- Consume a case-insensitive literal: each input character must fold to the
(pre-folded) pattern character.  Returns the remaining input. -/
def litFold : List Char → List Char → Option (List Char)
  | [], cs => some cs
  | _ :: _, [] => none
  | p :: ps, c :: cs => if charFold c = p then litFold ps cs else none

/-- Python `str.strip()` on a character list. -/
def stripList (l : List Char) : List Char :=
  ((l.dropWhile isSpaceChar).reverse.dropWhile isSpaceChar).reverse

/-- Python `str.strip()`. -/
def pyStrip (s : String) : String := String.mk (stripList s.data)

/-- Python `str.lower()` (restricted to `charFold`'s table). -/
def lowerStr (s : String) : String := String.mk (s.data.map charFold)

/-- Python `" ".join`. -/
def joinSpace : List String → String
  | [] => ""
  | x :: xs => xs.foldl (fun a b => a ++ " " ++ b) x

/-- Python `len(s.split())`: number of maximal runs of non-whitespace. -/
def countWords : List Char → Bool → Nat
  | [], _ => 0
  | c :: r, inw =>
    if isSpaceChar c then countWords r false
    else (if inw then 0 else 1) + countWords r true

/-- Word count of a string (Python `len(line.split())`). -/
def wordCount (s : String) : Nat := countWords s.data false

/-!
## The five line-classifier regexes

`part_re = ^\s*ČÁST\s+([A-Z]+|[IVXLCDM]+)` (IGNORECASE)
`head_re = ^\s*HLAVA\s+([IVXLCDM]+)` (IGNORECASE)
`paragraph_re = ^\s*§\s*(\d+[a-z]?)`
`subsection_l1_re = ^\s*\((\d+)\)`
`subsection_l2_re = ^\s*([a-z])\)`

Each matcher returns `(group 1, length of group 0)`.  For the two
case-insensitive patterns the decision is taken on the folded characters
(`partShape`/`headShape`), while the captured group keeps the original
characters, exactly as `re` does.  `[A-Z]+|[IVXLCDM]+` under IGNORECASE: the
first alternative already contains the second, so the group is the maximal
run of ASCII letters. -/

/-- Decision part of `part_re`, on the case-folded line: returns
(length before the group, group length). -/
def partShape (f : List Char) : Option (Nat × Nat) :=
  let n1 := (f.takeWhile isSpaceChar).length
  let f1 := f.dropWhile isSpaceChar
  match litFold "část".data f1 with
  | none => none
  | some f2 =>
    let n2 := (f2.takeWhile isSpaceChar).length
    if n2 = 0 then none else
    let f3 := f2.dropWhile isSpaceChar
    let k := (f3.takeWhile isAsciiLetter).length
    if k = 0 then none else some (n1 + 4 + n2, k)

/-- `part_re.match`, returning `(group 1, len(group 0))`. -/
def partMatch (l : List Char) : Option (String × Nat) :=
  match partShape (l.map charFold) with
  | none => none
  | some (off, k) => some (String.mk ((l.drop off).take k), off + k)

/-- Decision part of `head_re`, on the case-folded line. -/
def headShape (f : List Char) : Option (Nat × Nat) :=
  let n1 := (f.takeWhile isSpaceChar).length
  let f1 := f.dropWhile isSpaceChar
  match litFold "hlava".data f1 with
  | none => none
  | some f2 =>
    let n2 := (f2.takeWhile isSpaceChar).length
    if n2 = 0 then none else
    let f3 := f2.dropWhile isSpaceChar
    let k := (f3.takeWhile isRomanFold).length
    if k = 0 then none else some (n1 + 5 + n2, k)

/-- `head_re.match`, returning `(group 1, len(group 0))`. -/
def headMatch (l : List Char) : Option (String × Nat) :=
  match headShape (l.map charFold) with
  | none => none
  | some (off, k) => some (String.mk ((l.drop off).take k), off + k)

/-- `paragraph_re.match`, returning `(group 1, len(group 0))`. -/
def paraMatch (l : List Char) : Option (String × Nat) :=
  let n1 := (l.takeWhile isSpaceChar).length
  match l.dropWhile isSpaceChar with
  | '§' :: r1 =>
    let n2 := (r1.takeWhile isSpaceChar).length
    let r2 := r1.dropWhile isSpaceChar
    let k := (r2.takeWhile Char.isDigit).length
    if k = 0 then none else
    let ds := r2.take k
    match r2.drop k with
    | c :: _ =>
      if isLowerAscii c then some (String.mk (ds ++ [c]), n1 + 1 + n2 + k + 1)
      else some (String.mk ds, n1 + 1 + n2 + k)
    | [] => some (String.mk ds, n1 + 1 + n2 + k)
  | _ => none

/-- `subsection_l1_re.match`, returning `(group 1, len(group 0))`. -/
def sub1Match (l : List Char) : Option (String × Nat) :=
  let n1 := (l.takeWhile isSpaceChar).length
  match l.dropWhile isSpaceChar with
  | '(' :: r1 =>
    let k := (r1.takeWhile Char.isDigit).length
    if k = 0 then none else
    match r1.drop k with
    | ')' :: _ => some (String.mk (r1.take k), n1 + 1 + k + 1)
    | _ => none
  | _ => none

/-- `subsection_l2_re.match`, returning `(group 1, len(group 0))`. -/
def sub2Match (l : List Char) : Option (String × Nat) :=
  let n1 := (l.takeWhile isSpaceChar).length
  match l.dropWhile isSpaceChar with
  | c :: ')' :: _ => if isLowerAscii c then some (String.mk [c], n1 + 2) else none
  | _ => none

/-- The Line Classifier: first-match-wins over the five patterns, else plain
text (the order of the `if` chain in `structure_text_content`). -/
inductive LineClass where
  | part | head | para | sub1 | sub2 | plain
deriving DecidableEq, Repr

/-- Classify one (already stripped) line. -/
def classifyLine (l : List Char) : LineClass :=
  if (partMatch l).isSome then .part
  else if (headMatch l).isSome then .head
  else if (paraMatch l).isSome then .para
  else if (sub1Match l).isSome then .sub1
  else if (sub2Match l).isSome then .sub2
  else .plain

/-!
## Data model of the structuring engine

The Python code accumulates a paragraph's contents in
`current_paragraph_text`, a list mixing plain strings with
`subsection_level1` / `subsection_level2` dicts, and similarly for
`current_subsection_level1_text`.  Since the dicts' `identifier` values come
from variables that the Python code does not guard against `None`, the
identifiers inside buffer items are `Option String`. -/

/-- Element of `current_subsection_level1_text`. -/
inductive SItem where
  | str (s : String)
  | sub2 (identifier : Option String) (text : String)
deriving DecidableEq, Repr

/-- Element of `current_paragraph_text`. -/
inductive PItem where
  | str (s : String)
  | sub2 (identifier : Option String) (text : String)
  | sub1 (identifier : Option String) (content : List SItem)
deriving DecidableEq, Repr

/-- `content` of a `subsection_level1` output dict: a list before
consolidation, possibly collapsed to a single string afterwards. -/
inductive SubContent where
  | items (l : List SItem)
  | text (s : String)
deriving DecidableEq, Repr

/-- A `subsections` entry of a paragraph output dict. -/
inductive Sub where
  | sub1 (identifier : Option String) (content : SubContent)
  | sub2 (identifier : Option String) (text : String)
deriving DecidableEq, Repr

/-- `paragraph` output dict.  An absent `subsections` key is encoded as the
empty list (the key is added only when sub-items exist, and is only ever read
by iterating over it). -/
structure Paragraph where
  identifier : String
  text : String
  subsections : List Sub
deriving DecidableEq, Repr

/-- `head` output dict. -/
structure Head where
  identifier : String
  title : String
  paragraphs : List Paragraph
deriving DecidableEq, Repr

/-- `part` output dict. -/
structure Part where
  identifier : String
  title : String
  heads : List Head
  paragraphs : List Paragraph
deriving DecidableEq, Repr

/-- Root-level element of `structured_content`. -/
inductive Item where
  | part (p : Part)
  | head (h : Head)
  | para (p : Paragraph)
deriving DecidableEq, Repr

/-- The mutable state of `structure_text_content`'s line loop. -/
structure St where
  structured : List Item
  part : Option Part
  head : Option Head
  paraNum : Option String
  paraText : List PItem
  sub1Num : Option String
  sub1Text : List SItem
  sub2Letter : Option String
  sub2Text : List String
deriving DecidableEq, Repr

/-- Initial state: everything empty / inactive. -/
def initSt : St := ⟨[], none, none, none, [], none, [], none, []⟩

/-!
## Flush/attach protocol (`store_previous_item` and the head/part stores)
-/

/-- Attach a finalized paragraph: to the active head's `paragraphs` if a head
is active, else to the active part's `paragraphs`, else to the root sequence
(`store_previous_item`, lines 560–565). -/
def attachPara (q : Paragraph) (st : St) : St :=
  match st.head with
  | some hd => { st with head := some { hd with paragraphs := hd.paragraphs ++ [q] } }
  | none =>
    match st.part with
    | some pt => { st with part := some { pt with paragraphs := pt.paragraphs ++ [q] } }
    | none => { st with structured := st.structured ++ [Item.para q] }

/-- Attach a finalized head: to the active part's `heads` if a part is
active, else to the root sequence (lines 582–586, 610–614, 736–740). -/
def attachHead (h : Head) (st : St) : St :=
  match st.part with
  | some pt => { st with part := some { pt with heads := pt.heads ++ [h] } }
  | none => { st with structured := st.structured ++ [Item.head h] }

/-- Attach a finalized part: always to the root sequence (lines 588–589,
741–742). -/
def attachPart (p : Part) (st : St) : St :=
  { st with structured := st.structured ++ [Item.part p] }

/-- The finalized sub2 dict built from the current sub2 buffer. -/
def sub2Dict (st : St) : Option String × String :=
  (st.sub2Letter, pyStrip (joinSpace st.sub2Text))

/-- `store_previous_item` (lines 517–567): flush the sub2 buffer (into the
sub1 buffer, or directly into the paragraph buffer when the sub1 buffer is
empty), then the sub1 buffer into the paragraph buffer, then — only when the
paragraph buffer is non-empty and a paragraph number is set — build the
paragraph dict and attach it. -/
def storePrev (st : St) : St :=
  -- sub2 flush
  let st :=
    if st.sub2Text ≠ [] then
      let d := sub2Dict st
      let st' :=
        if st.sub1Text = [] then
          { st with paraText := st.paraText ++ [PItem.sub2 d.1 d.2] }
        else
          { st with sub1Text := st.sub1Text ++ [SItem.sub2 d.1 d.2] }
      { st' with sub2Text := [], sub2Letter := none }
    else st
  -- sub1 flush
  let st :=
    if st.sub1Text ≠ [] then
      { st with paraText := st.paraText ++ [PItem.sub1 st.sub1Num st.sub1Text],
                sub1Text := [], sub1Num := none }
    else st
  -- paragraph flush
  if st.paraText ≠ [] ∧ st.paraNum.isSome then
    let mains := st.paraText.filterMap fun i =>
      match i with | .str s => some s | _ => none
    let subs : List Sub := st.paraText.filterMap fun i =>
      match i with
      | .str _ => none
      | .sub2 id t => some (Sub.sub2 id t)
      | .sub1 id c => some (Sub.sub1 id (SubContent.items c))
    let q : Paragraph :=
      ⟨"§ " ++ st.paraNum.getD "", pyStrip (joinSpace mains), subs⟩
    let st' := attachPara q st
    { st' with paraText := [], paraNum := none }
  else st

/-!
## The line loop (`structure_text_content`, lines 569–742)
-/

/-- Append the paragraph-title candidate line: merged into the last buffer
segment when that segment is a plain string, appended as a new segment
otherwise (lines 651–655). -/
def mergeLast (l : List PItem) (s : String) : List PItem :=
  match l with
  | [] => [PItem.str s]
  | [PItem.str t] => [PItem.str (t ++ " " ++ s)]
  | [x] => [x, PItem.str s]
  | x :: xs => x :: mergeLast xs s

/-- Part/Head title lookahead (lines 592–597, 617–622): the first following
line is absorbed unconditionally; the second only when it does not classify
as Paragraph/Head/Part. -/
def lookTitle (la1 la2 : Option String) : String :=
  let t1 := match la1 with | some x => pyStrip x | none => ""
  match la2 with
  | none => t1
  | some x =>
    let xs := pyStrip x
    if (paraMatch xs.data).isSome || (headMatch xs.data).isSome
        || (partMatch xs.data).isSome then t1
    else t1 ++ " " ++ xs

/-- One iteration of the line loop.  `la1`/`la2` are the next two lines of
the input (`text_lines[line_idx+1]`, `text_lines[line_idx+2]`). -/
def processLine (line : String) (la1 la2 : Option String) (st : St) : St :=
  let ls := pyStrip line
  if ls = "" then st else
  let cs := ls.data
  match partMatch cs with
  | some (pid, _) =>
    -- lines 580–606
    let st := storePrev st
    let st :=
      match st.head with
      | some h => { attachHead h st with head := none }
      | none => st
    let st :=
      match st.part with
      | some p => attachPart p st
      | none => st
    { st with part := some ⟨"ČÁST " ++ pid, lookTitle la1 la2, [], []⟩ }
  | none =>
  match headMatch cs with
  | some (hid, _) =>
    -- lines 608–630
    let st := storePrev st
    let st :=
      match st.head with
      | some h => attachHead h st
      | none => st
    { st with head := some ⟨"HLAVA " ++ hid, lookTitle la1 la2, []⟩ }
  | none =>
  match paraMatch cs with
  | some (num, mlen) =>
    -- lines 632–656
    let st := storePrev st
    let textAfter := pyStrip (String.mk (cs.drop mlen))
    let st :=
      { st with paraNum := some num,
                paraText := st.paraText ++
                  (if textAfter ≠ "" then [PItem.str textAfter] else []) }
    match la1 with
    | none => st
    | some nl =>
      let ns := pyStrip nl
      let nd := ns.data
      if (paraMatch nd).isSome || (sub1Match nd).isSome || (sub2Match nd).isSome
          || (partMatch nd).isSome || (headMatch nd).isSome
          || startsWithL "§".data (lowerStr ns).data
          || startsWithL "(".data (lowerStr ns).data
          || startsWithL "čl.".data (lowerStr ns).data
          || wordCount ns > 10 then st
      else { st with paraText := mergeLast st.paraText ns }
  | none =>
  match sub1Match cs with
  | some (num, mlen) =>
    -- lines 658–690
    let st :=
      if st.sub2Text ≠ [] then
        let d := sub2Dict st
        let st' :=
          if st.sub1Text = [] then
            { st with paraText := st.paraText ++ [PItem.sub2 d.1 d.2] }
          else
            { st with sub1Text := st.sub1Text ++ [SItem.sub2 d.1 d.2] }
        { st' with sub2Text := [], sub2Letter := none }
      else st
    let st :=
      if st.sub1Text ≠ [] then
        { st with paraText := st.paraText ++ [PItem.sub1 st.sub1Num st.sub1Text] }
      else st
    let textAfter := pyStrip (String.mk (cs.drop mlen))
    { st with sub1Num := some num,
              sub1Text := if textAfter ≠ "" then [SItem.str textAfter] else [] }
  | none =>
  match sub2Match cs with
  | some (letter, mlen) =>
    -- lines 692–707; note: the flush target here is chosen by
    -- `current_subsection_level1_number`, not by the buffer's emptiness
    let st :=
      if st.sub2Text ≠ [] then
        let d := sub2Dict st
        if st.sub1Num.isSome then
          { st with sub1Text := st.sub1Text ++ [SItem.sub2 d.1 d.2] }
        else
          { st with paraText := st.paraText ++ [PItem.sub2 d.1 d.2] }
      else st
    let textAfter := pyStrip (String.mk (cs.drop mlen))
    { st with sub2Letter := some letter,
              sub2Text := if textAfter ≠ "" then [textAfter] else [] }
  | none =>
    -- lines 709–715: plain text goes to the deepest active level, else drops
    if st.sub2Letter.isSome then { st with sub2Text := st.sub2Text ++ [ls] }
    else if st.sub1Num.isSome then { st with sub1Text := st.sub1Text ++ [SItem.str ls] }
    else if st.paraNum.isSome then { st with paraText := st.paraText ++ [PItem.str ls] }
    else st

/-- The `for line_idx, line_text in enumerate(text_lines)` loop.  The two
lookahead lines are exactly the next elements of the list; the loop never
skips lines. -/
def loop : List String → St → St
  | [], st => st
  | l :: rest, st => loop rest (processLine l rest[0]? rest[1]? st)

/-- End-of-input flush (lines 734–742). -/
def finalFlush (st : St) : St :=
  let st := storePrev st
  let st :=
    match st.head with
    | some h => attachHead h st
    | none => st
  match st.part with
  | some p => attachPart p st
  | none => st

/-!
## Consolidation pass (lines 744–763)

Runs over the **root-level** items only; joins runs of adjacent plain-text
segments inside a `subsection_level1` content list and collapses a
single-string result to a plain string.
-/

/-- Join runs of adjacent string segments (the `new_content` /
`current_text_segment` loop). -/
def consolidateRun : List SItem → List String → List SItem
  | [], seg =>
    if seg ≠ [] then [SItem.str (pyStrip (joinSpace seg))] else []
  | SItem.str s :: rest, seg => consolidateRun rest (seg ++ [s])
  | d :: rest, seg =>
    (if seg ≠ [] then [SItem.str (pyStrip (joinSpace seg))] else []) ++
      d :: consolidateRun rest []

/-- Consolidate one `subsection_level1` content list, collapsing a single
string to a plain string. -/
def consolidateContent (l : List SItem) : SubContent :=
  match consolidateRun l [] with
  | [SItem.str s] => SubContent.text s
  | nc => SubContent.items nc

/-- Consolidate one subsections entry (level-2 entries are untouched). -/
def consolidateSub : Sub → Sub
  | Sub.sub1 id (SubContent.items l) => Sub.sub1 id (consolidateContent l)
  | s => s

/-- Consolidate one root item: applies only to `paragraph` items. -/
def consolidateItem : Item → Item
  | Item.para p => Item.para { p with subsections := p.subsections.map consolidateSub }
  | i => i

/-- `structure_text_content`: the full structuring engine. -/
def structure_text_content (lines : List String) : List Item :=
  (finalFlush (loop lines initSt)).structured.map consolidateItem

/-!
## Metadata extractor (`extract_metadata`, lines 410–491)
-/

/-- The metadata record.  `extract_metadata` initialises every string field
to the sentinel `"UNKNOWN"` except `source_file`, which starts as `""` and is
filled in by the caller. -/
structure Metadata where
  law_id : String
  title : String
  effective_date : String
  publication_date : String
  enforcing_agency : String
  references : List String
  source_file : String
deriving DecidableEq, Repr

/-- `re.search` driver: try an anchored matcher at every suffix (Python scans
match positions left to right). -/
def searchAll (f : List Char → Option α) : List Char → Option α
  | [] => f []
  | cs@(_ :: rest) =>
    match f cs with
    | some r => some r
    | none => searchAll f rest

/-- `re.findall` driver with explicit fuel (the haystack length): emit each
match and continue after its end; on failure advance one position. -/
def findAllAux (f : List Char → Option (String × Nat)) :
    Nat → List Char → List String
  | 0, _ => []
  | _ + 1, [] => []
  | fuel + 1, cs@(_ :: rest) =>
    match f cs with
    | some (s, n) => s :: findAllAux f fuel (cs.drop (max n 1))
    | none => findAllAux f fuel rest

/-- `re.findall`. -/
def findAllMatches (f : List Char → Option (String × Nat)) (cs : List Char) :
    List String :=
  findAllAux f cs.length cs

/-- Anchored matcher for `(\d+/\d{4})\s+Sb\.` (case-sensitive), returning
group 1. -/
def idAt (cs : List Char) : Option String :=
  let k := (cs.takeWhile Char.isDigit).length
  if k = 0 then none else
  match cs.drop k with
  | '/' :: t =>
    if (t.take 4).length = 4 ∧ (t.take 4).all Char.isDigit then
      let t4 := t.drop 4
      let sp := (t4.takeWhile isSpaceChar).length
      if sp = 0 then none else
      if startsWithL "Sb.".data (t4.drop sp) then
        some (String.mk (cs.take k ++ '/' :: t.take 4))
      else none
    else none
  | _ => none

/-- `re.search(r"(\d+/\d{4})\s+Sb\.", line)`. -/
def searchId (cs : List Char) : Option String := searchAll idAt cs

/-- Find the first line whose `searchId` succeeds; return the captured group
and the following lines (the loop with `break` at lines 430–462). -/
def findId : List String → Option (String × List String)
  | [] => none
  | l :: rest =>
    match searchId l.data with
    | some g => some (g, rest)
    | none => findId rest

/-- The title-candidate loop (lines 438–446): scan up to four lines, break at
the first structural marker, absorb lines carrying a title cue — or any line
once the title has started. -/
def titleScan : List String → String → String
  | [], acc => acc
  | l :: rest, acc =>
    if startsWithL "§".data l.data || hasSubL "ČÁST".data l.data
        || hasSubL "HLAVA".data l.data then acc
    else
      let low := l.data.map charFold
      if hasSubL "o ".data low || hasSubL "kterým se mění".data low
          || hasSubL "ze dne".data low then
        titleScan rest (acc ++ l ++ " ")
      else if acc ≠ "" then titleScan rest (acc ++ l ++ " ")
      else titleScan rest acc

/-- `re.sub(r"^\s*ze dne\s+\d+\.\s+\w+\s+\d{4}\s*", "", s, re.IGNORECASE)`:
remove the leading date phrase when it matches, else return the input
unchanged. -/
def zeDneSub (cs : List Char) : List Char :=
  let s0 := cs.dropWhile isSpaceChar
  match litFold "ze dne".data s0 with
  | none => cs
  | some s1 =>
    let sp1 := (s1.takeWhile isSpaceChar).length
    if sp1 = 0 then cs else
    let s2 := s1.drop sp1
    let k := (s2.takeWhile Char.isDigit).length
    if k = 0 then cs else
    match s2.drop k with
    | '.' :: s3 =>
      let sp2 := (s3.takeWhile isSpaceChar).length
      if sp2 = 0 then cs else
      let s4 := s3.drop sp2
      let w := (s4.takeWhile isWordChar).length
      if w = 0 then cs else
      let s5 := s4.drop w
      let sp3 := (s5.takeWhile isSpaceChar).length
      if sp3 = 0 then cs else
      let s6 := s5.drop sp3
      if (s6.take 4).length = 4 ∧ (s6.take 4).all Char.isDigit then
        (s6.drop 4).dropWhile isSpaceChar
      else cs
    | _ => cs

/-- `re.sub(r"^(ZÁKON|VYHLÁŠKA|NAŘÍZENÍ VLÁDY)\s*", "", s, re.IGNORECASE)`. -/
def docKindSub (cs : List Char) : List Char :=
  match litFold "zákon".data cs with
  | some r => r.dropWhile isSpaceChar
  | none =>
    match litFold "vyhláška".data cs with
    | some r => r.dropWhile isSpaceChar
    | none =>
      match litFold "nařízení vlády".data cs with
      | some r => r.dropWhile isSpaceChar
      | none => cs

/-- The two title clean-ups followed by the final `strip()` (lines 448–455). -/
def cleanTitle (cand : String) : String :=
  pyStrip (String.mk (docKindSub (zeDneSub (pyStrip cand).data)))

/-- Anchored matcher for `ze dne (\d{1,2}\. \w+ \d{4})` (IGNORECASE),
returning group 1. -/
def zeDneDateAt (cs : List Char) : Option String :=
  match litFold "ze dne ".data cs with
  | none => none
  | some s1 =>
    let k := (s1.takeWhile Char.isDigit).length
    if k = 1 ∨ k = 2 then
      match s1.drop k with
      | '.' :: ' ' :: s2 =>
        let w := (s2.takeWhile isWordChar).length
        if w = 0 then none else
        match s2.drop w with
        | ' ' :: s3 =>
          if (s3.take 4).length = 4 ∧ (s3.take 4).all Char.isDigit then
            some (String.mk (s1.take k ++ '.' :: ' ' :: s2.take w ++ ' ' :: s3.take 4))
          else none
        | _ => none
      | _ => none
    else none

/-- Anchored matcher for `nabývá účinnosti dnem\s+(.*)` (IGNORECASE),
returning group 1 (the rest of the line after the whitespace). -/
def effAt (cs : List Char) : Option String :=
  match litFold "nabývá účinnosti dnem".data cs with
  | none => none
  | some s1 =>
    let sp := (s1.takeWhile isSpaceChar).length
    if sp = 0 then none else some (String.mk (s1.drop sp))

/-- Python `str.rstrip('.')`. -/
def rstripDots (s : String) : String :=
  String.mk ((s.data.reverse.dropWhile (· = '.')).reverse)

/-- The effective-date scan over reversed lines (lines 465–469). -/
def findEff : List String → String
  | [] => "UNKNOWN"
  | l :: rest =>
    match searchAll effAt l.data with
    | some g => rstripDots (pyStrip g)
    | none => findEff rest

/-- Tail of the simple-reference pattern after the optional case suffix:
` č\.\s*\d+/\d{4}\s*Sb\.` (IGNORECASE).  Returns the remaining input. -/
def simpleRefTail (cs : List Char) : Option (List Char) :=
  match litFold " č.".data cs with
  | none => none
  | some s1 =>
    let s2 := s1.dropWhile isSpaceChar
    let k := (s2.takeWhile Char.isDigit).length
    if k = 0 then none else
    match s2.drop k with
    | '/' :: s3 =>
      if (s3.take 4).length = 4 ∧ (s3.take 4).all Char.isDigit then
        litFold "sb.".data ((s3.drop 4).dropWhile isSpaceChar)
      else none
    | _ => none

/-- Anchored matcher for `(zákon(?:a|u|ě)? č\.\s*\d+/\d{4}\s*Sb\.)`
(IGNORECASE).  The optional suffix is tried greedily with fallback, as the
regex engine does. -/
def simpleRefAt (cs : List Char) : Option (String × Nat) :=
  match litFold "zákon".data cs with
  | none => none
  | some s1 =>
    let rem? :=
      match s1 with
      | c :: rest =>
        if charFold c ∈ ['a', 'u', 'ě'] then
          match simpleRefTail rest with
          | some r => some r
          | none => simpleRefTail s1
        else simpleRefTail s1
      | [] => simpleRefTail s1
    match rem? with
    | some rem =>
      some (String.mk (cs.take (cs.length - rem.length)), cs.length - rem.length)
    | none => none

/-- Tail of the compound-reference pattern:
`\s*zákona č\.\s*\d+/\d{4}\s*Sb\.` (IGNORECASE). -/
def complexTail3 (cs : List Char) : Option (List Char) :=
  let s1 := cs.dropWhile isSpaceChar
  match litFold "zákona č.".data s1 with
  | none => none
  | some t1 =>
    let t2 := t1.dropWhile isSpaceChar
    let k := (t2.takeWhile Char.isDigit).length
    if k = 0 then none else
    match t2.drop k with
    | '/' :: t3 =>
      if (t3.take 4).length = 4 ∧ (t3.take 4).all Char.isDigit then
        litFold "sb.".data ((t3.drop 4).dropWhile isSpaceChar)
      else none
    | _ => none

/-- `\s*(?:písm\.\s*[a-z]\))?` followed by `complexTail3`, with regex
backtracking over the optional group. -/
def complexTail2 (cs : List Char) : Option (List Char) :=
  let s1 := cs.dropWhile isSpaceChar
  match litFold "písm.".data s1 with
  | some t1 =>
    let t2 := t1.dropWhile isSpaceChar
    match t2 with
    | c :: ')' :: t4 =>
      if isAsciiLetter c then
        match complexTail3 t4 with
        | some r => some r
        | none => complexTail3 s1
      else complexTail3 s1
    | _ => complexTail3 s1
  | none => complexTail3 s1

/-- `\s*(?:odst\.\s*\d+)?` followed by `complexTail2`, with regex
backtracking over the optional group. -/
def complexTailOdst (cs : List Char) : Option (List Char) :=
  let s1 := cs.dropWhile isSpaceChar
  match litFold "odst.".data s1 with
  | some t1 =>
    let t2 := t1.dropWhile isSpaceChar
    let k := (t2.takeWhile Char.isDigit).length
    if k = 0 then complexTail2 s1
    else
      match complexTail2 (t2.drop k) with
      | some r => some r
      | none => complexTail2 s1
  | none => complexTail2 s1

/-- Anchored matcher for
`(§\s*\d+[a-z]?\s*(?:odst\.\s*\d+)?\s*(?:písm\.\s*[a-z]\))?\s*zákona č\.\s*\d+/\d{4}\s*Sb\.)`
(IGNORECASE). -/
def complexRefAt (cs : List Char) : Option (String × Nat) :=
  match cs with
  | '§' :: s0 =>
    let s1 := s0.dropWhile isSpaceChar
    let k := (s1.takeWhile Char.isDigit).length
    if k = 0 then none else
    let s2 := s1.drop k
    let rem? :=
      match s2 with
      | c :: rest =>
        if isAsciiLetter c then
          match complexTailOdst rest with
          | some r => some r
          | none => complexTailOdst s2
        else complexTailOdst s2
      | [] => complexTailOdst s2
    match rem? with
    | some rem =>
      some (String.mk (cs.take (cs.length - rem.length)), cs.length - rem.length)
    | none => none
  | _ => none

/-- Per-line reference accumulation with de-duplication (lines 472–484). -/
def addRefs (acc : List String) (l : String) : List String :=
  let acc := (findAllMatches simpleRefAt l.data).foldl
    (fun a r => if r ∈ a then a else a ++ [r]) acc
  (findAllMatches complexRefAt l.data).foldl
    (fun a r => if r ∈ a then a else a ++ [r]) acc

/-- `extract_metadata`. -/
def extract_metadata (lines : List String) : Metadata :=
  let idFound := findId lines
  let law_id :=
    match idFound with
    | some (g, _) => g ++ " Sb."
    | none => "UNKNOWN"
  let title :=
    match idFound with
    | none => "UNKNOWN"
    | some (_, rest) =>
      match rest with
      | [] => "UNKNOWN"
      | nxt :: _ =>
        if startsWithL "§".data nxt.data then "UNKNOWN"
        else
          let cand := titleScan (rest.take 4) ""
          if cand ≠ "" then cleanTitle cand else "UNKNOWN"
  let publication :=
    match idFound with
    | none => "UNKNOWN"
    | some _ =>
      match searchAll zeDneDateAt (joinSpace (lines.take 10)).data with
      | some d => d
      | none => "UNKNOWN"
  let effective := findEff lines.reverse
  let refs := lines.foldl addRefs []
  ⟨law_id, title, effective, publication, "UNKNOWN", refs, ""⟩

/-!
## Classifier lemmas
-/

/-- Whether `part_re` matches is decided entirely on the case-folded line. -/
theorem partMatch_isSome_eq (l : List Char) :
    (partMatch l).isSome = (partShape (l.map charFold)).isSome := by
  unfold partMatch
  cases h : partShape (l.map charFold) with
  | none => simp [h]
  | some v => cases v with
    | mk off k => simp [h]

/-- Whether `head_re` matches is decided entirely on the case-folded line. -/
theorem headMatch_isSome_eq (l : List Char) :
    (headMatch l).isSome = (headShape (l.map charFold)).isSome := by
  unfold headMatch
  cases h : headShape (l.map charFold) with
  | none => simp [h]
  | some v => cases v with
    | mk off k => simp [h]

/-- A line classifies as a Part marker exactly when `part_re` matches it. -/
theorem classifyLine_part_iff (l : List Char) :
    classifyLine l = .part ↔ (partMatch l).isSome := by
  unfold classifyLine
  split_ifs <;> simp_all

/-- A line classifies as a Head marker exactly when `head_re` matches it and
`part_re` does not. -/
theorem classifyLine_head_iff (l : List Char) :
    classifyLine l = .head ↔ ((partMatch l).isSome = false ∧ (headMatch l).isSome) := by
  unfold classifyLine
  split_ifs <;> simp_all

/-- When `subsection_l2_re` matches, the first character after the leading
whitespace is a lowercase ASCII letter. -/
theorem sub2Match_lower (l : List Char) (h : (sub2Match l).isSome) :
    ∃ c r, l.dropWhile isSpaceChar = c :: r ∧ isLowerAscii c = true := by
  unfold sub2Match at h
  split at h
  case h_1 c tail heq =>
    by_cases hl : isLowerAscii c
    · exact ⟨c, ')' :: tail, heq, hl⟩
    · simp [hl] at h
  case h_2 => simp at h

/-- Claim C10: Part and Head marker classification is case-insensitive — two
lines that agree after case folding classify as Part (resp. Head) together —
whereas Subsection-L2 classification requires a lowercase ASCII letter before
the closing parenthesis, so a line beginning with an uppercase letter such as
`A)` is plain text while its lowercase form is a Subsection-L2 marker. -/
theorem C10_case_insensitive_markers :
    (∀ l l' : List Char, l.map charFold = l'.map charFold →
      ((classifyLine l = .part ↔ classifyLine l' = .part) ∧
       (classifyLine l = .head ↔ classifyLine l' = .head))) ∧
    (∀ l : List Char, (sub2Match l).isSome →
      ∃ c r, l.dropWhile isSpaceChar = c :: r ∧ isLowerAscii c = true) ∧
    classifyLine "A) text".data = .plain ∧
    classifyLine "a) text".data = .sub2 := by
  refine ⟨?_, sub2Match_lower, by decide, by decide⟩
  intro l l' hfold
  have hp : (partMatch l).isSome = (partMatch l').isSome := by
    rw [partMatch_isSome_eq, partMatch_isSome_eq, hfold]
  have hh : (headMatch l).isSome = (headMatch l').isSome := by
    rw [headMatch_isSome_eq, headMatch_isSome_eq, hfold]
  constructor
  · rw [classifyLine_part_iff, classifyLine_part_iff, hp]
  · rw [classifyLine_head_iff, classifyLine_head_iff, hp, hh]

/-- Witness for C10 at concrete lines: a fully lowercase Part marker
classifies together with its uppercase form, and a matched lowercase
Subsection-L2 line indeed starts with a lowercase letter. -/
theorem C10_case_insensitive_markers_witness :
    ((classifyLine "část iv".data = .part ↔ classifyLine "ČÁST IV".data = .part) ∧
     (classifyLine "část iv".data = .head ↔ classifyLine "ČÁST IV".data = .head)) ∧
    (∃ c r, "b) x".data.dropWhile isSpaceChar = c :: r ∧ isLowerAscii c = true) :=
  ⟨C10_case_insensitive_markers.1 "část iv".data "ČÁST IV".data (by decide),
   C10_case_insensitive_markers.2.1 "b) x".data (by decide)⟩

/-!
## Title lookahead (claim C1)
-/

/-- A line that matches none of the five patterns leaves the state unchanged
when no Paragraph or Subsection level is active. -/
theorem processLine_inactive (line : String) (la1 la2 : Option String) (st : St)
    (h1 : partMatch (pyStrip line).data = none)
    (h2 : headMatch (pyStrip line).data = none)
    (h3 : paraMatch (pyStrip line).data = none)
    (h4 : sub1Match (pyStrip line).data = none)
    (h5 : sub2Match (pyStrip line).data = none)
    (a1 : st.sub2Letter = none) (a2 : st.sub1Num = none) (a3 : st.paraNum = none) :
    processLine line la1 la2 st = st := by
  unfold processLine
  by_cases hne : pyStrip line = ""
  · simp [hne]
  · simp [hne, h1, h2, h3, h4, h5, a1, a2, a3]

/-- Iterating `processLine` over non-marker lines with no active
Paragraph/Subsection level leaves the state unchanged. -/
theorem loop_inactive (ls : List String) (st : St)
    (hm : ∀ l ∈ ls,
      partMatch (pyStrip l).data = none ∧ headMatch (pyStrip l).data = none ∧
      paraMatch (pyStrip l).data = none ∧ sub1Match (pyStrip l).data = none ∧
      sub2Match (pyStrip l).data = none)
    (a1 : st.sub2Letter = none) (a2 : st.sub1Num = none) (a3 : st.paraNum = none) :
    loop ls st = st := by
  induction ls with
  | nil => rfl
  | cons l rest ih =>
    show loop rest (processLine l rest[0]? rest[1]? st) = st
    obtain ⟨m1, m2, m3, m4, m5⟩ := hm l (by simp)
    rw [processLine_inactive l rest[0]? rest[1]? st m1 m2 m3 m4 m5 a1 a2 a3]
    exact ih fun x hx => hm x (by simp [hx])

/-- Claim C1, amended: the first line after a Part marker is absorbed into
the title unconditionally; only the second following line is checked against
the Part/Head/Paragraph patterns before being absorbed (space-joined).  The
lookahead does not consume lines: each absorbed line is processed again by
the loop — a non-marker title line merely contributes nothing further
because no Paragraph or Subsection is active, while a title line that is
itself a marker starts a new node, as the second conjunct shows on
`["ČÁST I", "ČÁST II"]` (the second part line is both part 1's title and a
new Part). -/
theorem C1_lookahead_actual (t1 t2 : String)
    (h1 : partMatch (pyStrip t1).data = none)
    (h2 : headMatch (pyStrip t1).data = none)
    (h3 : paraMatch (pyStrip t1).data = none)
    (h4 : sub1Match (pyStrip t1).data = none)
    (h5 : sub2Match (pyStrip t1).data = none)
    (g1 : partMatch (pyStrip t2).data = none)
    (g2 : headMatch (pyStrip t2).data = none)
    (g3 : paraMatch (pyStrip t2).data = none)
    (g4 : sub1Match (pyStrip t2).data = none)
    (g5 : sub2Match (pyStrip t2).data = none) :
    structure_text_content ["ČÁST I", t1, t2] =
      [Item.part ⟨"ČÁST I", pyStrip t1 ++ " " ++ pyStrip t2, [], []⟩] ∧
    structure_text_content ["ČÁST I", "ČÁST II"] =
      [Item.part ⟨"ČÁST I", "ČÁST II", [], []⟩,
       Item.part ⟨"ČÁST II", "", [], []⟩] := by
  refine ⟨?_, by decide⟩
  have e0 : lookTitle (some t1) (some t2) = pyStrip t1 ++ " " ++ pyStrip t2 := by
    unfold lookTitle
    simp [g1, g2, g3]
  show (finalFlush (loop ["ČÁST I", t1, t2] initSt)).structured.map consolidateItem = _
  have l1 : loop ["ČÁST I", t1, t2] initSt =
      loop [t1, t2]
        ⟨[], some ⟨"ČÁST I", lookTitle (some t1) (some t2), [], []⟩,
         none, none, [], none, [], none, []⟩ := rfl
  rw [l1, e0]
  have l2 : loop [t1, t2]
      ⟨[], some ⟨"ČÁST I", pyStrip t1 ++ " " ++ pyStrip t2, [], []⟩,
       none, none, [], none, [], none, []⟩ =
      ⟨[], some ⟨"ČÁST I", pyStrip t1 ++ " " ++ pyStrip t2, [], []⟩,
       none, none, [], none, [], none, []⟩ := by
    refine loop_inactive _ _ ?_ rfl rfl rfl
    intro x hx
    simp only [List.mem_cons, List.mem_singleton, List.not_mem_nil, or_false] at hx
    rcases hx with hx | hx
    · exact hx ▸ ⟨h1, h2, h3, h4, h5⟩
    · exact hx ▸ ⟨g1, g2, g3, g4, g5⟩
  rw [l2]
  rfl

/-- Witness for C1's amended theorem at two concrete non-marker title
lines. -/
theorem C1_lookahead_actual_witness :
    (structure_text_content ["ČÁST I", "OBECNÁ", "USTANOVENÍ"] =
      [Item.part ⟨"ČÁST I", pyStrip "OBECNÁ" ++ " " ++ pyStrip "USTANOVENÍ", [], []⟩]) ∧
    structure_text_content ["ČÁST I", "ČÁST II"] =
      [Item.part ⟨"ČÁST I", "ČÁST II", [], []⟩,
       Item.part ⟨"ČÁST II", "", [], []⟩] :=
  C1_lookahead_actual "OBECNÁ" "USTANOVENÍ"
    (by decide) (by decide) (by decide) (by decide) (by decide)
    (by decide) (by decide) (by decide) (by decide) (by decide)

/-- Claim C1, counterexample: the claim says the first line after a Part
marker is absorbed into the title only if it is not itself classified as
Part/Head/Paragraph, with an empty title otherwise.  On input
`["ČÁST I", "§ 5"]` the line after the marker is a Paragraph marker, yet the
code absorbs it unconditionally: the produced Part's title is `"§ 5"`, not
the empty string. -/
theorem C1_lookahead_counterexample :
    structure_text_content ["ČÁST I", "§ 5"] =
      [Item.part ⟨"ČÁST I", "§ 5", [], []⟩] ∧
    structure_text_content ["ČÁST I", "§ 5"] ≠
      [Item.part ⟨"ČÁST I", "", [], []⟩] := by decide

/-- Claim C2 (code bug): the specification's Scenario 1 expects the single
Paragraph's text to be `"Základní ustanovení."`, each contributing line
counted once.  The code's one-shot lookahead absorbs the following line into
the paragraph buffer but does not advance the loop index, so the same line is
appended again as plain text on the next iteration, doubling it. -/
theorem C2_paragraph_text_doubled :
    structure_text_content ["§ 1", "Základní ustanovení."] =
      [Item.para ⟨"§ 1", "Základní ustanovení. Základní ustanovení.", []⟩] ∧
    structure_text_content ["§ 1", "Základní ustanovení."] ≠
      [Item.para ⟨"§ 1", "Základní ustanovení.", []⟩] := by decide

/-!
## Flush completeness (claim C3)
-/

/-- Claim C3, counterexample: two Paragraph marker activations, yet the
output is empty — a paragraph whose buffer is empty at flush time is dropped
(`if current_paragraph_text and current_paragraph_number`), so the node
count at the Paragraph level is 0, not 2. -/
theorem C3_flush_counterexample :
    structure_text_content ["§ 1", "§ 2"] = [] ∧
    (structure_text_content ["§ 1", "§ 2"]).length ≠ 2 := by decide

/-!
## Post-processing of subsections (claim C5)
-/

/-- Claim C5, counterexample: the claim says every finalized Paragraph's
subsections are consolidated, whether attached at root, under a Part, or
under a Head.  The consolidation loop iterates over root-level items only
and skips anything that is not a `paragraph` dict, so a Paragraph attached
under a Part keeps its un-joined content list: here the Subsection-L1 content
stays `["prvni", "druha"]` instead of collapsing to `"prvni druha"`. -/
theorem C5_consolidation_counterexample :
    structure_text_content ["ČÁST I", "T", "§ 2", "(1) prvni", "druha"] =
      [Item.part ⟨"ČÁST I", "T", [],
        [⟨"§ 2", "",
          [Sub.sub1 (some "1")
            (SubContent.items [SItem.str "prvni", SItem.str "druha"])]⟩]⟩] ∧
    structure_text_content ["ČÁST I", "T", "§ 2", "(1) prvni", "druha"] ≠
      [Item.part ⟨"ČÁST I", "T", [],
        [⟨"§ 2", "",
          [Sub.sub1 (some "1") (SubContent.text "prvni druha")]⟩]⟩] := by decide

/-- Claim C5, amended: the post-processing applies exactly to Paragraphs
attached at the document root.  For such a Paragraph, runs of adjacent
plain-text segments are joined, nested Subsection-L2 dicts remain distinct
elements, and a single-text-segment content collapses to one string —
Scenario 3's structure. -/
theorem C5_root_consolidation :
    structure_text_content
      ["§ 2", "(1) První věta.", "a) první položka", "b) druhá položka",
       "(2) Druhá věta."] =
      [Item.para ⟨"§ 2", "",
        [Sub.sub1 (some "1")
          (SubContent.items
            [SItem.str "První věta.",
             SItem.sub2 (some "a") "první položka",
             SItem.sub2 (some "b") "druhá položka"]),
         Sub.sub1 (some "2") (SubContent.text "Druhá věta.")]⟩] := by decide

/-!
## Scenario 2 (claim C7)
-/

/-- Claim C7, counterexample: Scenario 2 expects one Part with identifier
`"PART PRVNÍ"` containing a Paragraph with text `"Text."`.  The code labels
parts `"ČÁST …"` (not `"PART …"`), its `[A-Z]+` capture stops before the
non-ASCII `Í` (so the identifier token is `"PRVN"`), and the lookahead
doubling makes the paragraph text `"Text. Text."`. -/
theorem C7_scenario2_counterexample :
    structure_text_content ["ČÁST PRVNÍ", "OBECNÁ USTANOVENÍ", "§ 1", "Text."] ≠
      [Item.part ⟨"PART PRVNÍ", "OBECNÁ USTANOVENÍ", [],
        [⟨"§ 1", "Text.", []⟩]⟩] := by decide

/-- Claim C7, amended: on Scenario 2's input the engine produces exactly one
Part with identifier `"ČÁST PRVN"` (the `[A-Z]+` capture excludes `Í`) and
title `"OBECNÁ USTANOVENÍ"`, containing exactly one Paragraph `"§ 1"` whose
text is `"Text. Text."` (the absorbed lookahead line is appended again by the
main loop). -/
theorem C7_scenario2_actual :
    structure_text_content ["ČÁST PRVNÍ", "OBECNÁ USTANOVENÍ", "§ 1", "Text."] =
      [Item.part ⟨"ČÁST PRVN", "OBECNÁ USTANOVENÍ", [],
        [⟨"§ 1", "Text. Text.", []⟩]⟩] := by decide

/-!
## Empty input and totality (claim C9)
-/

/-- Claim C9, counterexample: `extract_metadata` initialises `source_file`
to the empty string, not to the `"UNKNOWN"` sentinel, so on empty input not
every string metadata field carries the sentinel. -/
theorem C9_source_file_not_sentinel :
    (extract_metadata []).source_file ≠ "UNKNOWN" := by decide

/-- Claim C9, amended: on the empty input sequence the structuring engine
returns the empty sequence, and metadata extraction returns `"UNKNOWN"` for
every string field it extracts (identifier, title, effective date,
publication date, agency), the empty reference list, and the empty string
for `source_file` (which is filled in by the caller).  Both functions are
total Lean definitions, so no input can make them raise. -/
theorem C9_empty_input :
    structure_text_content [] = [] ∧
    extract_metadata [] =
      ⟨"UNKNOWN", "UNKNOWN", "UNKNOWN", "UNKNOWN", "UNKNOWN", [], ""⟩ := by decide

/-!
## Attachment precedence (claim C4)
-/

/-- Claim C4: whenever a node is finalized, a Paragraph attaches to the
active Head's paragraphs if a Head is active, else to the active Part's
paragraphs if a Part is active, else to the document root; a Head attaches
to the active Part's heads if a Part is active, else to the root; a Part
always attaches to the root.  These three attachment operations are the ones
invoked by `store_previous_item`, the Part/Head transitions, and the final
flush; the last conjunct exercises the full pipeline, nesting a Paragraph
under a Head under a Part. -/
theorem C4_attachment_precedence (st : St) (q : Paragraph) (h : Head) (p : Part) :
    (attachPara q st =
      match st.head, st.part with
      | some hd, _ =>
        { st with head := some { hd with paragraphs := hd.paragraphs ++ [q] } }
      | none, some pt =>
        { st with part := some { pt with paragraphs := pt.paragraphs ++ [q] } }
      | none, none => { st with structured := st.structured ++ [Item.para q] }) ∧
    (attachHead h st =
      match st.part with
      | some pt => { st with part := some { pt with heads := pt.heads ++ [h] } }
      | none => { st with structured := st.structured ++ [Item.head h] }) ∧
    (attachPart p st = { st with structured := st.structured ++ [Item.part p] }) ∧
    structure_text_content ["ČÁST X", "Tp", "HLAVA II", "Th", "§ 3", "(1) y"] =
      [Item.part ⟨"ČÁST X", "Tp",
        [⟨"HLAVA II", "Th",
          [⟨"§ 3", "", [Sub.sub1 (some "1") (SubContent.items [SItem.str "y"])]⟩]⟩],
        []⟩] := by
  refine ⟨?_, ?_, rfl, by decide⟩
  · rcases hh : st.head with _ | hd <;> rcases hp : st.part with _ | pt <;>
      simp [attachPara, hh, hp]
  · rcases hp : st.part with _ | pt <;> simp [attachHead, hp]

/-!
## Plain-text routing (claim C6)
-/

/-- Claim C6: a line classified as plain text (none of the five marker
patterns matches its stripped form) is appended, stripped verbatim, to the
buffer of the single deepest active level — Subsection-L2 before
Subsection-L1 before Paragraph — and is dropped, leaving the state
untouched, when none of those levels is active. -/
theorem C6_plaintext_routing (line : String) (la1 la2 : Option String) (st : St)
    (hne : pyStrip line ≠ "")
    (h1 : partMatch (pyStrip line).data = none)
    (h2 : headMatch (pyStrip line).data = none)
    (h3 : paraMatch (pyStrip line).data = none)
    (h4 : sub1Match (pyStrip line).data = none)
    (h5 : sub2Match (pyStrip line).data = none) :
    processLine line la1 la2 st =
      if st.sub2Letter.isSome then
        { st with sub2Text := st.sub2Text ++ [pyStrip line] }
      else if st.sub1Num.isSome then
        { st with sub1Text := st.sub1Text ++ [SItem.str (pyStrip line)] }
      else if st.paraNum.isSome then
        { st with paraText := st.paraText ++ [PItem.str (pyStrip line)] }
      else st := by
  unfold processLine
  simp [hne, h1, h2, h3, h4, h5]

/-- Witness for C6: a concrete plain-text line routed into the active
Subsection-L2 buffer (which has priority over the active L1 and Paragraph
levels). -/
theorem C6_plaintext_routing_witness :
    processLine "volný text" none none
        ⟨[], none, none, some "1", [], some "2", [SItem.str "a"], some "b", ["c"]⟩ =
      if (⟨[], none, none, some "1", [], some "2", [SItem.str "a"], some "b", ["c"]⟩ :
            St).sub2Letter.isSome then
        { (⟨[], none, none, some "1", [], some "2", [SItem.str "a"], some "b", ["c"]⟩ :
            St) with sub2Text := ["c"] ++ [pyStrip "volný text"] }
      else if (⟨[], none, none, some "1", [], some "2", [SItem.str "a"], some "b",
            ["c"]⟩ : St).sub1Num.isSome then
        { (⟨[], none, none, some "1", [], some "2", [SItem.str "a"], some "b", ["c"]⟩ :
            St) with sub1Text := [SItem.str "a"] ++ [SItem.str (pyStrip "volný text")] }
      else if (⟨[], none, none, some "1", [], some "2", [SItem.str "a"], some "b",
            ["c"]⟩ : St).paraNum.isSome then
        { (⟨[], none, none, some "1", [], some "2", [SItem.str "a"], some "b", ["c"]⟩ :
            St) with paraText := [] ++ [PItem.str (pyStrip "volný text")] }
      else ⟨[], none, none, some "1", [], some "2", [SItem.str "a"], some "b", ["c"]⟩ :=
  C6_plaintext_routing "volný text" none none
    ⟨[], none, none, some "1", [], some "2", [SItem.str "a"], some "b", ["c"]⟩
    (by decide) (by decide) (by decide) (by decide) (by decide) (by decide)

/-- Claim C3, amended: with the subsection buffers empty, the flush routine
is a no-op exactly when the paragraph buffer is empty or no paragraph number
is set — so a marker activation produces an output node only when its buffer
is non-empty at flush time (Part and Head dicts, by contrast, are appended
unconditionally by their transitions).  The second conjunct shows the
end-of-input flush emitting a still-active, non-empty Paragraph. -/
theorem C3_empty_buffer_flush (st : St)
    (h1 : st.sub2Text = []) (h2 : st.sub1Text = []) :
    (storePrev st = st ↔ (st.paraText = [] ∨ st.paraNum = none)) ∧
    structure_text_content ["§ 9", "(1) obsah"] =
      [Item.para ⟨"§ 9", "", [Sub.sub1 (some "1") (SubContent.text "obsah")]⟩] := by
  refine ⟨?_, by decide⟩
  unfold storePrev
  simp only [h1, h2, ne_eq, not_true_eq_false, if_false, ite_false]
  constructor
  · intro he
    by_contra hcon
    push_neg at hcon
    obtain ⟨hpt, hpn⟩ := hcon
    rw [if_pos ⟨hpt, Option.ne_none_iff_isSome.mp hpn⟩] at he
    have : st.paraNum = none := by rw [← he]
    exact hpn this
  · intro hor
    have hcond : ¬(st.paraText ≠ [] ∧ st.paraNum.isSome) := by
      rcases hor with h | h <;> simp [h]
    rw [if_neg hcond]

/-- Witness for C3's amended theorem: a state with a non-empty paragraph
buffer and a set paragraph number, for which the flush is not a no-op. -/
theorem C3_empty_buffer_flush_witness :
    (storePrev ⟨[], none, none, some "1", [PItem.str "x"], none, [], none, []⟩ =
        ⟨[], none, none, some "1", [PItem.str "x"], none, [], none, []⟩ ↔
      ((⟨[], none, none, some "1", [PItem.str "x"], none, [], none, []⟩ :
          St).paraText = [] ∨
       (⟨[], none, none, some "1", [PItem.str "x"], none, [], none, []⟩ :
          St).paraNum = none)) ∧
    structure_text_content ["§ 9", "(1) obsah"] =
      [Item.para ⟨"§ 9", "", [Sub.sub1 (some "1") (SubContent.text "obsah")]⟩] :=
  C3_empty_buffer_flush
    ⟨[], none, none, some "1", [PItem.str "x"], none, [], none, []⟩ rfl rfl

/-!
## Metadata identifier and title (claim C8)
-/

/-- Claim C8: on a line matching the identifier pattern (`"101/2000 Sb."`)
followed by a title line — one that carries a title cue (here the `"o "`
cue), is not a structural marker, and is not touched by the two title
clean-ups — metadata extraction yields identifier `"101/2000 Sb."` and the
title populated from that following line. -/
theorem C8_metadata_id_title (t : String)
    (h1 : pyStrip t = t)
    (h2 : startsWithL "§".data t.data = false)
    (h3 : hasSubL "ČÁST".data t.data = false)
    (h4 : hasSubL "HLAVA".data t.data = false)
    (h5 : hasSubL "o ".data (t.data.map charFold) = true)
    (h6 : stripList (t.data ++ [' ']) = t.data)
    (h7 : zeDneSub t.data = t.data)
    (h8 : docKindSub t.data = t.data) :
    (extract_metadata ["101/2000 Sb.", t]).law_id = "101/2000 Sb." ∧
    (extract_metadata ["101/2000 Sb.", t]).title = t := by
  have hfid : findId ["101/2000 Sb.", t] = some ("101/2000", [t]) := rfl
  have htsc : titleScan [t] "" = "" ++ t ++ " " := by
    unfold titleScan
    simp [h2, h3, h4, h5]
    rfl
  have hdata : ("" ++ t ++ " ").data = t.data ++ [' '] := by
    have d1 : ("" : String).data = [] := rfl
    have d2 : (" " : String).data = [' '] := rfl
    simp [String.data_append, d1, d2]
  have hne : ¬("" ++ t ++ " " = "") := by
    intro hc
    have := congrArg String.data hc
    rw [hdata] at this
    simp at this
  have hstrip : pyStrip ("" ++ t ++ " ") = t := by
    unfold pyStrip
    rw [hdata, h6]
  have hmk : String.mk t.data = t := rfl
  have hclean : cleanTitle ("" ++ t ++ " ") = t := by
    unfold cleanTitle
    rw [hstrip, h7, h8, hmk, h1]
  constructor
  · simp only [extract_metadata, hfid]
    rfl
  · simp only [extract_metadata, hfid, List.take_succ_cons, List.take_nil, h2,
      Bool.false_eq_true, if_false, htsc, hclean]
    exact if_pos hne

/-- Witness for C8 at the concrete title line
`"o ochraně osobních údajů"`. -/
theorem C8_metadata_id_title_witness :
    (extract_metadata ["101/2000 Sb.", "o ochraně osobních údajů"]).law_id =
      "101/2000 Sb." ∧
    (extract_metadata ["101/2000 Sb.", "o ochraně osobních údajů"]).title =
      "o ochraně osobních údajů" :=
  C8_metadata_id_title "o ochraně osobních údajů"
    (by decide) (by decide) (by decide) (by decide)
    (by decide) (by decide) (by decide) (by decide)

end LegalStruct
